import Mathlib

/-!
# Verification of the projectile-prediction trajectory core

Shallow embedding of the trajectory integration engine of
`frontend/src/Ballistic.jsx` (the `runSimulation` callback and the physics
helpers it closes over).  JavaScript IEEE-754 doubles are idealised as real
numbers, so every numeric definition below is a function on `ℝ`; the
module-level numeric constants, the ISA atmosphere bands, the Mach-dependent
drag law, the derivative function (thrust, gravity, drag, rotation terms),
the RK4 stepper and the sample-collecting driver loop are translated
one-for-one from the source.

The source's `separated` flag is a mutable variable captured by the
`derivatives` closure; it is modelled here by threading an explicit `Bool`
through `derivatives`, `rk4Step` and the driver loop in the exact order the
source reads and writes it.

The driver's `while (t < maxTime)` loop advances `t` by the fixed step
`dt = 0.5` starting from `0`, so `t = k * 0.5` for the iteration counter `k`
and the guard `t < 7200` is equivalent to `k < 14400`.  The loop is embedded
as structural recursion on the remaining-iteration count `n` together with
the iteration index `k`; the top-level call uses `n = 14400`, `k = 0`, which
makes fuel exhaustion coincide exactly with the source's time ceiling.
-/

namespace Ballistic

/-! ## Module constants (Ballistic.jsx lines 28-48) -/

/-- Gravitational constant `G`. -/
noncomputable def G : ℝ := 6.67430e-11

/-- Earth mass `M_E` (kg). -/
noncomputable def M_E : ℝ := 5.97217e24

/-- Mean Earth radius `R_E` (m). -/
noncomputable def R_E : ℝ := 6371000

/-- Standard gravity `g0` (m/s^2). -/
noncomputable def g0 : ℝ := 9.80665

/-- Earth rotation rate `omega` (rad/s). -/
noncomputable def omega : ℝ := 7.292115e-5

/-- Sea-level temperature `T0_ISA` (K). -/
noncomputable def T0_ISA : ℝ := 288.15

/-- Sea-level pressure `P0_ISA` (Pa). -/
noncomputable def P0_ISA : ℝ := 101325

/-- Temperature lapse rate `L_ISA` (K/m). -/
noncomputable def L_ISA : ℝ := 0.0065

/-- Specific gas constant for air `R_GAS` (J/(kg K)). -/
noncomputable def R_GAS : ℝ := 287.05

/-- Heat capacity ratio `GAMMA`. -/
noncomputable def GAMMA : ℝ := 1.4

/-- Source constant `DEFAULT_PARAMS.crossSection = Math.PI * 0.5 * 0.5` (m^2). -/
noncomputable def crossSection : ℝ := Real.pi * 0.5 * 0.5

/-! ## Atmosphere model (`getAirDensity`, lines 703-732)

Each ISA band's formula is its own definition so that the band-boundary
claims can speak about "the band below" and "the band above" a transition;
`getAirDensity` dispatches between them with the source's `if` cascade. -/

/-- Troposphere branch of `getAirDensity` (`altitude <= 11000`). -/
noncomputable def densityTroposphere (altitude : ℝ) : ℝ :=
  let T := T0_ISA - L_ISA * altitude
  let P := P0_ISA * (T / T0_ISA) ^ (g0 / (L_ISA * R_GAS))
  P / (R_GAS * T)

/-- Lower-stratosphere branch of `getAirDensity` (`11000 < altitude <= 20000`). -/
noncomputable def densityStrat1 (altitude : ℝ) : ℝ :=
  let T : ℝ := 216.65
  let P11 := P0_ISA * ((216.65 : ℝ) / T0_ISA) ^ (g0 / (L_ISA * R_GAS))
  let P := P11 * Real.exp (-g0 * (altitude - 11000) / (R_GAS * T))
  P / (R_GAS * T)

/-- Upper-stratosphere branch of `getAirDensity` (`20000 < altitude <= 32000`). -/
noncomputable def densityStrat2 (altitude : ℝ) : ℝ :=
  let T := 216.65 + 0.001 * (altitude - 20000)
  let P20 := P0_ISA * ((216.65 : ℝ) / T0_ISA) ^ (g0 / (L_ISA * R_GAS)) *
             Real.exp (-g0 * 9000 / (R_GAS * 216.65))
  let P := P20 * (T / 216.65) ^ (-g0 / (0.001 * R_GAS))
  P / (R_GAS * T)

/-- Mesosphere branch of `getAirDensity` (`32000 < altitude <= 84000`). -/
noncomputable def densityMeso (altitude : ℝ) : ℝ :=
  let P := P0_ISA * Real.exp (-altitude / 8500)
  P / (R_GAS * 186.87)

/-- Source `getAirDensity(altitude)`: negative altitudes clamped to `0`, then the
four-band `if` cascade, `0` above 84 km. -/
noncomputable def getAirDensity (altitude : ℝ) : ℝ :=
  let a := if altitude < 0 then 0 else altitude
  if a ≤ 11000 then densityTroposphere a
  else if a ≤ 20000 then densityStrat1 a
  else if a ≤ 32000 then densityStrat2 a
  else if a ≤ 84000 then densityMeso a
  else 0

/-- Source `getLocalGravity(altitude)`: inverse-square gravity (lines 735-738). -/
noncomputable def getLocalGravity (altitude : ℝ) : ℝ :=
  let r := R_E + altitude
  G * M_E / (r * r)

/-- Source `getSpeedOfSound(altitude)` (lines 741-753). -/
noncomputable def getSpeedOfSound (altitude : ℝ) : ℝ :=
  let T :=
    if altitude ≤ 11000 then T0_ISA - L_ISA * altitude
    else if altitude ≤ 20000 then (216.65 : ℝ)
    else if altitude ≤ 32000 then 216.65 + 0.001 * (altitude - 20000)
    else (186.87 : ℝ)
  Real.sqrt (GAMMA * R_GAS * T)

/-! ## Drag model (`getDragCoefficient`, lines 756-769) -/

/-- Transonic branch `baseCd * (1 + 0.5*((mach-0.8)/0.4)^2)`. -/
noncomputable def cdTransonic (baseCd mach : ℝ) : ℝ :=
  baseCd * (1 + 0.5 * ((mach - 0.8) / 0.4) ^ 2)

/-- Supersonic branch `baseCd * (1.2 - 0.1*(mach-1.2))`. -/
noncomputable def cdSupersonic (baseCd mach : ℝ) : ℝ :=
  baseCd * (1.2 - 0.1 * (mach - 1.2))

/-- Hypersonic branch `baseCd * 0.7`. -/
noncomputable def cdHypersonic (baseCd : ℝ) : ℝ := baseCd * 0.7

/-- Source `getDragCoefficient(baseCd, mach)`: branch dispatch on Mach number. -/
noncomputable def getDragCoefficient (baseCd mach : ℝ) : ℝ :=
  if mach < 0.8 then baseCd
  else if mach < 1.2 then cdTransonic baseCd mach
  else if mach < 5 then cdSupersonic baseCd mach
  else cdHypersonic baseCd

/-! ## Vector helpers (lines 771-792) -/

/-- Source `norm([a, b])` of the source (2-vector Euclidean length). -/
noncomputable def norm2 (a b : ℝ) : ℝ := Real.sqrt (a * a + b * b)

/-- Source `normalize([a, b])`: unit vector, or `[0,0]` when the length is not
positive. -/
noncomputable def normalize2 (a b : ℝ) : ℝ × ℝ :=
  let n := norm2 a b
  if n > 0 then (a / n, b / n) else (0, 0)

/-- Source `rotate(vector, thetaDeg)`: rotation by an angle in degrees. -/
noncomputable def rotate2 (a b thetaDeg : ℝ) : ℝ × ℝ :=
  let theta := thetaDeg * Real.pi / 180
  (Real.cos theta * a - Real.sin theta * b,
   Real.sin theta * a + Real.cos theta * b)

/-! ## Simulation parameters and state

`getParams` (lines 834-860) assembles this record; `runSimulation`
(lines 863-1031) destructures it into `m_0, m_f, m_wh, v_e, F, baseCd, A,
EA, burnTime`. -/

/-- The parameter record consumed by `runSimulation`. -/
structure SimParams where
  elevationAngle : ℝ
  launchMass : ℝ
  emptyMass : ℝ
  warheadMass : ℝ
  thrustToWeight : ℝ
  dragCoeff : ℝ
  isp : ℝ
  launchHeight : ℝ
  burnTime : ℝ

/-- The evolving state `[x, y, vx, vy, m]` (source uses a 5-array; embedded
as a structure, all array `map`s below are written out componentwise). -/
structure SimState where
  x : ℝ
  y : ℝ
  vx : ℝ
  vy : ℝ
  m : ℝ
deriving Inhabited

/-- A state derivative `[vx, vy, ax, ay, dmdt]` as returned by
`derivatives`. -/
structure Deriv where
  dx : ℝ
  dy : ℝ
  dvx : ℝ
  dvy : ℝ
  dm : ℝ

/-- Source `v_e = params.isp * g0` (line 872). -/
noncomputable def exhaustVelocity (p : SimParams) : ℝ := p.isp * g0

/-- Source `F = m_0 * g0 * params.thrustToWeight` (line 873). -/
noncomputable def initialThrust (p : SimParams) : ℝ :=
  p.launchMass * g0 * p.thrustToWeight

/-- Source `burnTime = params.burnTime || (m_0 - m_f) / (F / v_e)` (line 877); the
JavaScript `||` falls back exactly when the stored value is `0`. -/
noncomputable def effBurnTime (p : SimParams) : ℝ :=
  if p.burnTime = 0 then
    (p.launchMass - p.emptyMass) / (initialThrust p / exhaustVelocity p)
  else p.burnTime

/-- Mass-flow component of `derivatives` (lines 926-931): `-F/v_e` during
the burn phase (`m > m_f && t < burnTime * 1.5`), else `0`. -/
noncomputable def massFlow (p : SimParams) (m t : ℝ) : ℝ :=
  if m > p.emptyMass ∧ t < effBurnTime p * 1.5 then
    -(initialThrust p) / exhaustVelocity p
  else 0

/-- Updated value of the closed-over `separated` flag after one
`derivatives` call (lines 923-934): unchanged while the burn branch is
taken, set to `true` the first time `m <= m_f`, and otherwise unchanged.
This value is also the `isSeparated` the same call uses for drag. -/
noncomputable def sepUpdate (p : SimParams) (m t : ℝ) (sep : Bool) : Bool :=
  if m > p.emptyMass ∧ t < effBurnTime p * 1.5 then sep
  else if sep = false ∧ m ≤ p.emptyMass then true
  else sep

/-- Source `decidePointing(x, y, vx, vy, flightTime)` (lines 893-910); the
`flightTime` argument is unused in the source and omitted here. -/
noncomputable def decidePointing (EA x y vx vy : ℝ) : ℝ × ℝ :=
  let rhat := normalize2 x y
  let vhat := if vx = 0 ∧ vy = 0 then rhat else normalize2 vx vy
  let h := norm2 x y - R_E
  if h > 10000 then vhat
  else if x * vx + y * vy > 0 then rotate2 rhat.1 rhat.2 (EA - 90)
  else vhat

/-- Drag-acceleration vector of `derivatives` (lines 940-956), as a function
of the `isSeparated` value the call computed: separated flight uses the
warhead mass and the reduced cross-section `A * 0.3`. -/
noncomputable def dragAccelVec (p : SimParams) (isSep : Bool) (st : SimState) :
    ℝ × ℝ :=
  let v := norm2 st.vx st.vy
  let h := norm2 st.x st.y - R_E
  let rho := getAirDensity h
  let effectiveMass := if isSep then p.warheadMass else st.m
  let effectiveArea := if isSep then crossSection * 0.3 else crossSection
  let mach := v / getSpeedOfSound h
  let C_D := getDragCoefficient p.dragCoeff mach
  if v > 0 ∧ rho > 0 then
    let dragAccel := 0.5 * rho * v * v * C_D * effectiveArea / effectiveMass
    let vhat := normalize2 st.vx st.vy
    (-dragAccel * vhat.1, -dragAccel * vhat.2)
  else (0, 0)

/-- Source `derivatives(state, t)` (lines 912-967) together with the new value of
the closed-over `separated` flag. -/
noncomputable def derivatives (p : SimParams) (st : SimState) (t : ℝ)
    (sep : Bool) : Deriv × Bool :=
  let r := norm2 st.x st.y
  let h := r - R_E
  let phat := decidePointing p.elevationAngle st.x st.y st.vx st.vy
  let isSep := sepUpdate p st.m t sep
  let a_rocket : ℝ × ℝ :=
    if st.m > p.emptyMass ∧ t < effBurnTime p * 1.5 then
      let currentThrust := initialThrust p * (st.m / p.launchMass)
      ((currentThrust / st.m) * phat.1, (currentThrust / st.m) * phat.2)
    else (0, 0)
  let g_local := getLocalGravity h
  let a_g : ℝ × ℝ := (-(g_local * st.x) / r, -(g_local * st.y) / r)
  let a_drag := dragAccelVec p isSep st
  let a_cen : ℝ × ℝ := (omega * omega * st.x, omega * omega * st.y)
  let a_cor : ℝ × ℝ := (2 * omega * st.vy, -(2 * omega * st.vx))
  (⟨st.vx, st.vy,
    a_rocket.1 + a_g.1 + a_drag.1 + a_cen.1 + a_cor.1,
    a_rocket.2 + a_g.2 + a_drag.2 + a_cen.2 + a_cor.2,
    massFlow p st.m t⟩,
   isSep)

/-- Source `rk4Step(state, t, dt)` (lines 969-979), threading the `separated` flag
through the four derivative evaluations in source order. -/
noncomputable def rk4Step (p : SimParams) (st : SimState) (t dt : ℝ)
    (sep : Bool) : SimState × Bool :=
  let r1 := derivatives p st t sep
  let k1 := r1.1
  let s2 : SimState := ⟨st.x + 0.5 * dt * k1.dx, st.y + 0.5 * dt * k1.dy,
    st.vx + 0.5 * dt * k1.dvx, st.vy + 0.5 * dt * k1.dvy,
    st.m + 0.5 * dt * k1.dm⟩
  let r2 := derivatives p s2 (t + 0.5 * dt) r1.2
  let k2 := r2.1
  let s3 : SimState := ⟨st.x + 0.5 * dt * k2.dx, st.y + 0.5 * dt * k2.dy,
    st.vx + 0.5 * dt * k2.dvx, st.vy + 0.5 * dt * k2.dvy,
    st.m + 0.5 * dt * k2.dm⟩
  let r3 := derivatives p s3 (t + 0.5 * dt) r2.2
  let k3 := r3.1
  let s4 : SimState := ⟨st.x + dt * k3.dx, st.y + dt * k3.dy,
    st.vx + dt * k3.dvx, st.vy + dt * k3.dvy, st.m + dt * k3.dm⟩
  let r4 := derivatives p s4 (t + dt) r3.2
  let k4 := r4.1
  (⟨st.x + (dt / 6) * (k1.dx + 2 * k2.dx + 2 * k3.dx + k4.dx),
    st.y + (dt / 6) * (k1.dy + 2 * k2.dy + 2 * k3.dy + k4.dy),
    st.vx + (dt / 6) * (k1.dvx + 2 * k2.dvx + 2 * k3.dvx + k4.dvx),
    st.vy + (dt / 6) * (k1.dvy + 2 * k2.dvy + 2 * k3.dvy + k4.dvy),
    st.m + (dt / 6) * (k1.dm + 2 * k2.dm + 2 * k3.dm + k4.dm)⟩,
   r4.2)

/-! ## Trajectory samples and the driver loop (lines 879-1006) -/

/-- One recorded trajectory point (lines 988-997); the `'powered'` /
`'ballistic'` string tag is embedded as the Boolean `powered`. -/
structure Sample where
  t : ℝ
  x : ℝ
  y : ℝ
  h : ℝ
  v : ℝ
  mach : ℝ
  m : ℝ
  powered : Bool
deriving Inhabited

/-- The sample pushed for the current state at time `t` (lines 982-997). -/
noncomputable def mkSample (p : SimParams) (t : ℝ) (st : SimState) : Sample :=
  let r := norm2 st.x st.y
  let h := r - R_E
  let v := norm2 st.vx st.vy
  let sos := getSpeedOfSound (max 0 h)
  { t := t, x := st.x / 1000, y := st.y / 1000, h := h / 1000, v := v,
    mach := v / sos, m := st.m,
    powered := if st.m > p.emptyMass then true else false }

/-- The `while (t < maxTime)` loop (lines 981-1006): record a sample, break
if `h < 0 && t > 10`, otherwise advance by `rk4Step` and repeat.  `n` is the
remaining-iteration fuel and `k` the iteration index, with `t = k * 0.5`;
the second component is the state and `separated` flag left when the loop
exits.  The top-level call `simLoop p 14400 0 ...` makes `n = 0` coincide
with the source guard `t < 7200` becoming false. -/
noncomputable def simLoop (p : SimParams) :
    ℕ → ℕ → SimState → Bool → List Sample × (SimState × Bool)
  | 0, _, st, sep => ([], (st, sep))
  | n + 1, k, st, sep =>
    let t : ℝ := (k : ℝ) * 0.5
    let samp := mkSample p t st
    let h := norm2 st.x st.y - R_E
    if h < 0 ∧ t > 10 then ([samp], (st, sep))
    else
      let next := rk4Step p st t 0.5 sep
      let rest := simLoop p n (k + 1) next.1 next.2
      (samp :: rest.1, rest.2)

/-- The initial state (lines 879-884): `[0, R_E + launchAltitude, 0,
initialVy, m_0]` with `initialVy = launchAltitude > 1000 ? 200 : 100`; the
source's `params.launchHeight || 0` is the identity on real values. -/
noncomputable def initState (p : SimParams) : SimState :=
  ⟨0, R_E + p.launchHeight, 0, if p.launchHeight > 1000 then 200 else 100,
   p.launchMass⟩

/-- The full trajectory of one run: the loop from `t = 0` with the
`separated` flag freshly initialised to `false` (line 890). -/
noncomputable def runTrajectory (p : SimParams) : List Sample :=
  (simLoop p 14400 0 (initState p) false).1

/-! ## Summary statistics (lines 1008-1030) -/

/-- The summary-statistics record built after the loop. -/
structure Stats where
  range : ℝ
  maxHeight : ℝ
  maxVelocity : ℝ
  maxMach : ℝ
  impactVelocity : ℝ
  impactMach : ℝ
  flightTime : ℝ
  trajectoryPoints : ℕ

/-- Embedding of `Math.max(...)` over a list, seeded by its first element (the source
spreads a nonempty trajectory). -/
noncomputable def listMax : List ℝ → ℝ
  | [] => 0
  | a :: l => l.foldl max a

/-- The statistics block (lines 1008-1030) as a function of the recorded
sample sequence; `impactMach = impactVelocity / 340` uses the source's fixed
constant (line 1027), and the source's `p.mach || 0` in the max-Mach map is
the identity on real values. -/
noncomputable def computeStats (traj : List Sample) : Stats :=
  let firstS := traj.headI
  let lastS := traj.getLastD default
  let startPos : ℝ × ℝ := (firstS.x * 1000, firstS.y * 1000)
  let endPos : ℝ × ℝ := (lastS.x * 1000, lastS.y * 1000)
  let cosAngle := (startPos.1 * endPos.1 + startPos.2 * endPos.2) /
    (norm2 startPos.1 startPos.2 * norm2 endPos.1 endPos.2)
  let rangeKm := R_E * Real.arccos (max (-1) (min 1 cosAngle)) / 1000
  { range := rangeKm,
    maxHeight := listMax (traj.map Sample.h),
    maxVelocity := listMax (traj.map Sample.v),
    maxMach := listMax (traj.map Sample.mach),
    impactVelocity := lastS.v,
    impactMach := lastS.v / 340,
    flightTime := lastS.t,
    trajectoryPoints := traj.length }

/-- Source boundary `simulate(params)`: the trajectory plus its summary statistics. -/
noncomputable def runSimulation (p : SimParams) : List Sample × Stats :=
  let traj := runTrajectory p
  (traj, computeStats traj)

/-! ## Claim-side definitions and concrete inputs -/

/-- Modelled from the spec: "ground range = angle between first and last
position vectors times the planetary radius"; the angle between two plane
vectors via `arccos` of their clamped normalised dot product. -/
noncomputable def positionAngle (a b : ℝ × ℝ) : ℝ :=
  Real.arccos (max (-1)
    (min 1 ((a.1 * b.1 + a.2 * b.2) / (norm2 a.1 a.2 * norm2 b.1 b.2))))

/-- Modelled from the spec: drag acceleration built from "the payload-only
values", i.e. the warhead mass and the reduced cross-sectional area
`A * 0.3`, with no dependence on the full-vehicle mass. -/
noncomputable def payloadDragVec (p : SimParams) (st : SimState) : ℝ × ℝ :=
  let v := norm2 st.vx st.vy
  let h := norm2 st.x st.y - R_E
  let rho := getAirDensity h
  let mach := v / getSpeedOfSound h
  let C_D := getDragCoefficient p.dragCoeff mach
  if v > 0 ∧ rho > 0 then
    let dragAccel := 0.5 * rho * v * v * C_D * (crossSection * 0.3) /
      p.warheadMass
    let vhat := normalize2 st.vx st.vy
    (-dragAccel * vhat.1, -dragAccel * vhat.2)
  else (0, 0)

/-- A concrete, valid parameter set (the manual-mode defaults of the source
with the V-2 burn time). -/
noncomputable def testParams : SimParams :=
  { elevationAngle := 45, launchMass := 6200, emptyMass := 1600,
    warheadMass := 800, thrustToWeight := 1.5, dragCoeff := 0.2, isp := 237,
    launchHeight := 0, burnTime := 65 }

/-- An invalid parameter set: mass inversion (`emptyMass > launchMass`) and
a non-positive drag coefficient. -/
noncomputable def badParams : SimParams :=
  { elevationAngle := 45, launchMass := 1000, emptyMass := 2000,
    warheadMass := 800, thrustToWeight := 1.5, dragCoeff := -1, isp := 237,
    launchHeight := 0, burnTime := 65 }

/-- A concrete below-surface state moving at 340 m/s straight up-axis. -/
noncomputable def impactState : SimState := ⟨0, R_E - 1000, 0, 340, 1000⟩

/-- A concrete below-surface state at rest. -/
noncomputable def groundState : SimState := ⟨0, R_E - 1000, 0, 0, 1000⟩

/-- A concrete powered-flight state at full mass. -/
noncomputable def burnState : SimState := ⟨0, R_E, 0, 0, 6200⟩

/-! ## Structural helper lemmas -/

/-- One unfolding of the driver loop: the current sample is always recorded
first, and the loop stops after it exactly when `h < 0 ∧ t > 10`. -/
theorem simLoop_succ (p : SimParams) (n k : ℕ) (st : SimState) (sep : Bool) :
    (simLoop p (n + 1) k st sep).1 =
      mkSample p ((k : ℝ) * 0.5) st ::
        (if norm2 st.x st.y - R_E < 0 ∧ ((k : ℝ) * 0.5) > 10 then []
         else (simLoop p n (k + 1) (rk4Step p st ((k : ℝ) * 0.5) 0.5 sep).1
                 (rk4Step p st ((k : ℝ) * 0.5) 0.5 sep).2).1) := by
  simp only [simLoop]
  split_ifs <;> rfl

/-- The loop records at most one sample per unit of fuel. -/
theorem simLoop_length_le (p : SimParams) :
    ∀ (n k : ℕ) (st : SimState) (sep : Bool),
      (simLoop p n k st sep).1.length ≤ n := by
  intro n
  induction n with
  | zero => intro k st sep; simp [simLoop]
  | succ n ih =>
    intro k st sep
    rw [simLoop_succ]
    by_cases hb : norm2 st.x st.y - R_E < 0 ∧ ((k : ℝ) * 0.5) > 10
    · rw [if_pos hb]; simp
    · rw [if_neg hb]
      simpa using ih (k + 1) _ _

/-- A loop with fuel records at least its first sample. -/
theorem simLoop_ne_nil (p : SimParams) (n k : ℕ) (st : SimState)
    (sep : Bool) : (simLoop p (n + 1) k st sep).1 ≠ [] := by
  rw [simLoop_succ]; simp

/-- The first recorded sample is the sample of the entry state. -/
theorem simLoop_headI (p : SimParams) (n k : ℕ) (st : SimState)
    (sep : Bool) :
    (simLoop p (n + 1) k st sep).1.headI = mkSample p ((k : ℝ) * 0.5) st := by
  rw [simLoop_succ]; rfl

/-- Evaluation lemma: `norm2 0 b = b` for nonnegative `b`. -/
theorem norm2_zero_left (b : ℝ) (hb : 0 ≤ b) : norm2 0 b = b := by
  rw [norm2, show (0 : ℝ) * 0 + b * b = b * b by ring]
  exact Real.sqrt_mul_self hb

/-- The run's trajectory is nonempty and headed by the initial sample. -/
theorem runTrajectory_head (p : SimParams) :
    runTrajectory p ≠ [] ∧
      (runTrajectory p).headI = mkSample p 0 (initState p) := by
  rw [runTrajectory, show (14400 : ℕ) = 14399 + 1 by norm_num]
  refine ⟨simLoop_ne_nil p 14399 0 _ _, ?_⟩
  rw [simLoop_headI]
  norm_num

/-! ## C1: determinism and per-run flag initialisation -/

/-- C1: the trajectory core is a pure function of its parameters, so two
invocations with identical parameters produce identical trajectory sample
sequences and summary statistics; the run's `separated` flag enters the
integration loop freshly initialised to `false` (no state leaks between
runs). -/
theorem c1_determinism (p q : SimParams) (hpq : p = q) :
    runSimulation p = runSimulation q ∧
      (runSimulation p).1 = (simLoop p 14400 0 (initState p) false).1 := by
  subst hpq; exact ⟨rfl, rfl⟩

/-- Witness for C1 at a concrete parameter set. -/
theorem c1_witness :
    runSimulation testParams = runSimulation testParams ∧
      (runSimulation testParams).1 =
        (simLoop testParams 14400 0 (initState testParams) false).1 :=
  c1_determinism testParams testParams rfl

/-! ## C2: drag-coefficient breakpoints -/

/-- C2 counterexample: the claim fails at the `mach = 1.2` breakpoint.  With
`baseCd = 1` the branch below (transonic) evaluates to `1.5` while the
branch at/above (supersonic) evaluates to `1.2`, a jump of `0.3`. -/
theorem c2_counterexample :
    cdTransonic 1 1.2 = 1.5 ∧ cdSupersonic 1 1.2 = 1.2 ∧
      cdTransonic 1 1.2 ≠ cdSupersonic 1 1.2 := by
  norm_num [cdTransonic, cdSupersonic]

/-- C2 amended: the effective drag coefficient is continuous at
`mach = 0.8` (the subsonic value `baseCd` equals the transonic branch
there, which is also the branch `getDragCoefficient` takes at `0.8`), but
it jumps by `0.3 * baseCd` at `mach = 1.2` and by `0.12 * baseCd` at
`mach = 5` — discontinuities for every `baseCd ≠ 0`. -/
theorem c2_drag_breakpoints (baseCd : ℝ) :
    cdTransonic baseCd 0.8 = baseCd ∧
      getDragCoefficient baseCd 0.8 = cdTransonic baseCd 0.8 ∧
      cdTransonic baseCd 1.2 - cdSupersonic baseCd 1.2 = 0.3 * baseCd ∧
      cdSupersonic baseCd 5 - cdHypersonic baseCd = 0.12 * baseCd := by
  refine ⟨?_, ?_, ?_, ?_⟩ <;>
    norm_num [cdTransonic, cdSupersonic, cdHypersonic, getDragCoefficient] <;>
    ring

/-! ## C5: absence of fail-fast validation -/

/-- C5 counterexample: with `emptyMass > launchMass` and a negative drag
coefficient, the core does not fail fast: the integration loop still starts
and records a first sample at `t = 0` whose mass is the raw (unclamped)
`launchMass`. -/
theorem c5_counterexample :
    (runSimulation badParams).1 ≠ [] ∧
      (runSimulation badParams).1.headI.t = 0 ∧
      (runSimulation badParams).1.headI.m = 1000 := by
  have h := runTrajectory_head badParams
  refine ⟨h.1, ?_, ?_⟩ <;> rw [show (runSimulation badParams).1 =
    runTrajectory badParams from rfl, h.2] <;>
    simp [mkSample, initState, badParams]

/-- C5 amended: the core performs no parameter validation at all — for
every parameter record, valid or not, it proceeds straight into the
integration loop, records a first sample at `t = 0`, and uses the raw
parameter values unchanged (no error report, but also no clamping). -/
theorem c5_no_validation (p : SimParams) :
    (runSimulation p).1 ≠ [] ∧
      (runSimulation p).1.headI = mkSample p 0 (initState p) ∧
      (mkSample p 0 (initState p)).m = p.launchMass := by
  have h := runTrajectory_head p
  exact ⟨h.1, h.2, rfl⟩

/-! ## C7: bounded termination -/

/-- C7: every run returns a result; the driver loop runs while
`t < maxTime = 7200` with `t` advanced by the fixed `dt = 0.5`, so the
trajectory always holds at least one and at most `14401` recorded samples
(in fact at most `14400`), whether or not the ground is reached sooner. -/
theorem c7_termination_bound (p : SimParams) :
    (runSimulation p).1.length ≤ 14401 ∧
      (runSimulation p).2.trajectoryPoints = (runSimulation p).1.length ∧
      (runSimulation p).1 ≠ [] := by
  refine ⟨le_trans (simLoop_length_le p 14400 0 _ _) (by norm_num), rfl,
    (runTrajectory_head p).1⟩

/-! ## C4: initial state -/

/-- C4 counterexample: at the concrete parameter set with elevation angle
`45°` the initial velocity is `(0, 100)`, which is not of the form
`(s cos 45°, s sin 45°)` for any speed `s` — the initial velocity is not
derived from a speed/angle pair (there is no initial-speed parameter, and
the elevation angle is ignored). -/
theorem c4_counterexample :
    ¬ ∃ s : ℝ,
      (initState testParams).vx =
          s * Real.cos (testParams.elevationAngle * Real.pi / 180) ∧
        (initState testParams).vy =
          s * Real.sin (testParams.elevationAngle * Real.pi / 180) := by
  rintro ⟨s, h1, h2⟩
  have hang : testParams.elevationAngle * Real.pi / 180 = Real.pi / 4 := by
    rw [show testParams.elevationAngle = 45 from rfl]; ring
  rw [hang, Real.cos_pi_div_four,
    show (initState testParams).vx = 0 by norm_num [initState, testParams]]
      at h1
  rw [hang, Real.sin_pi_div_four,
    show (initState testParams).vy = 100 by norm_num [initState, testParams]]
      at h2
  rw [← h1] at h2
  norm_num at h2

/-- C4 amended: the initial state at `t = 0` has position
`(0, R_E + launchHeight)` — altitude `launchHeight` above the reference
surface, as recorded by the first trajectory sample — initial mass
`launchMass`, and a fixed initial velocity `(0, 100)` m/s (or `(0, 200)`
when `launchHeight > 1000`), independent of any speed or angle
parameter. -/
theorem c4_initial_state (p : SimParams) (hlh : -R_E ≤ p.launchHeight) :
    (initState p).vx = 0 ∧
      (initState p).vy = (if p.launchHeight > 1000 then (200 : ℝ) else 100) ∧
      (initState p).m = p.launchMass ∧
      (runSimulation p).1.headI.t = 0 ∧
      (runSimulation p).1.headI.h = p.launchHeight / 1000 := by
  have h := runTrajectory_head p
  have hy : (0 : ℝ) ≤ R_E + p.launchHeight := by
    have : (0 : ℝ) ≤ R_E := by norm_num [R_E]
    linarith
  refine ⟨rfl, rfl, rfl, ?_, ?_⟩ <;>
    rw [show (runSimulation p).1 = runTrajectory p from rfl, h.2]
  · rfl
  · show (norm2 (initState p).x (initState p).y - R_E) / 1000 =
      p.launchHeight / 1000
    rw [show (initState p).x = 0 from rfl,
      show (initState p).y = R_E + p.launchHeight from rfl,
      norm2_zero_left _ hy]
    ring

/-- Witness for C4 at a concrete parameter set. -/
theorem c4_witness :
    (initState testParams).vx = 0 ∧
      (initState testParams).vy =
        (if testParams.launchHeight > 1000 then (200 : ℝ) else 100) ∧
      (initState testParams).m = testParams.launchMass ∧
      (runSimulation testParams).1.headI.t = 0 ∧
      (runSimulation testParams).1.headI.h = testParams.launchHeight / 1000 :=
  c4_initial_state testParams
    (by norm_num [testParams, R_E])

/-! ## C3: atmosphere band boundaries

The 11 km and 20 km transitions are exact equalities of the band formulas;
the 32 km and 84 km transitions are genuine discontinuities.  The 32 km gap
is established through explicit bounds on the two band values. -/

/-- Lower bound: `exp 0.4` dominates `1.05^8`. -/
theorem exp_point4_ge : (1.05 : ℝ) ^ (8 : ℕ) ≤ Real.exp 0.4 := by
  have h8 : Real.exp 0.4 = Real.exp 0.05 ^ (8 : ℕ) := by
    rw [← Real.exp_nat_mul]; norm_num
  have h05 : (1.05 : ℝ) ≤ Real.exp 0.05 := by
    have := Real.add_one_le_exp (0.05 : ℝ); linarith
  rw [h8]
  exact pow_le_pow_left (by norm_num) h05 8

/-- Lower bound: `exp 1.4` is at least `4`. -/
theorem exp_one_four_ge : (4 : ℝ) ≤ Real.exp 1.4 := by
  have h1 := Real.exp_one_gt_d9
  calc (4 : ℝ) ≤ 2.7182818283 * 1.05 ^ (8 : ℕ) := by norm_num
    _ ≤ Real.exp 1 * Real.exp 0.4 :=
        mul_le_mul h1.le exp_point4_ge (by positivity) (Real.exp_pos 1).le
    _ = Real.exp 1.4 := by rw [← Real.exp_add]; norm_num

/-- Upper bound: `exp 4` is at most `54.6`. -/
theorem exp_four_le : Real.exp 4 ≤ (54.6 : ℝ) := by
  have h : Real.exp 4 = Real.exp 1 ^ (4 : ℕ) := by
    rw [← Real.exp_nat_mul]; norm_num
  rw [h]
  calc Real.exp 1 ^ (4 : ℕ) ≤ 2.7182818286 ^ (4 : ℕ) :=
      pow_le_pow_left (Real.exp_pos 1).le Real.exp_one_lt_d9.le 4
    _ ≤ 54.6 := by norm_num

/-- The mesosphere band evaluated at the 32 km boundary is at least
`0.034 kg/m^3`. -/
theorem densityMeso_32km_lower : (0.034 : ℝ) ≤ densityMeso 32000 := by
  simp only [densityMeso]
  have h1 : Real.exp (-(4 : ℝ)) ≤ Real.exp (-(32000 : ℝ) / 8500) :=
    Real.exp_le_exp.mpr (by norm_num)
  have h2 : (1 : ℝ) / 54.6 ≤ Real.exp (-(4 : ℝ)) := by
    rw [Real.exp_neg, one_div]
    exact inv_le_inv_of_le (Real.exp_pos 4) exp_four_le
  have hexp : (1 : ℝ) / 54.6 ≤ Real.exp (-(32000 : ℝ) / 8500) :=
    le_trans h2 h1
  have hden : (0 : ℝ) < R_GAS * 186.87 := by norm_num [R_GAS]
  calc (0.034 : ℝ) ≤ P0_ISA * (1 / 54.6) / (R_GAS * 186.87) := by
        norm_num [P0_ISA, R_GAS]
    _ ≤ P0_ISA * Real.exp (-(32000 : ℝ) / 8500) / (R_GAS * 186.87) :=
        (div_le_div_right hden).mpr
          (mul_le_mul_of_nonneg_left hexp (by norm_num [P0_ISA]))

/-- The tropospheric power-law factor at the tropopause is at most
`0.2403`. -/
theorem rpow_trop_bound :
    ((216.65 : ℝ) / T0_ISA) ^ (g0 / (L_ISA * R_GAS)) ≤ 0.2403 := by
  have ha0 : (0 : ℝ) < 216.65 / T0_ISA := by norm_num [T0_ISA]
  have ha1 : (216.65 : ℝ) / T0_ISA ≤ 1 := by norm_num [T0_ISA]
  have he : (5 : ℝ) ≤ g0 / (L_ISA * R_GAS) := by norm_num [g0, L_ISA, R_GAS]
  calc ((216.65 : ℝ) / T0_ISA) ^ (g0 / (L_ISA * R_GAS))
      ≤ ((216.65 : ℝ) / T0_ISA) ^ (5 : ℝ) :=
        Real.rpow_le_rpow_of_exponent_ge ha0 ha1 he
    _ = ((216.65 : ℝ) / T0_ISA) ^ (5 : ℕ) := by
        rw [show ((5 : ℝ)) = ((5 : ℕ) : ℝ) by norm_num, Real.rpow_natCast]
    _ ≤ 0.2403 := by norm_num [T0_ISA]

/-- The isothermal decay factor `exp(-g0*9000/(R*216.65))` is at most
`0.25`. -/
theorem exp_strat_bound :
    Real.exp (-g0 * 9000 / (R_GAS * 216.65)) ≤ 0.25 := by
  have h14 : -g0 * 9000 / (R_GAS * 216.65) ≤ -1.4 := by
    rw [div_le_iff (by norm_num [R_GAS] : (0:ℝ) < R_GAS * 216.65)]
    norm_num [g0, R_GAS]
  calc Real.exp (-g0 * 9000 / (R_GAS * 216.65)) ≤ Real.exp (-(1.4 : ℝ)) :=
      Real.exp_le_exp.mpr (by linarith)
    _ ≤ 0.25 := by
        rw [Real.exp_neg, show (0.25 : ℝ) = 4⁻¹ by norm_num]
        exact inv_le_inv_of_le (by norm_num) exp_one_four_ge

/-- The upper-stratosphere power-law factor at 32 km is at most `1/6`. -/
theorem rpow_strat2_bound :
    (((216.65 + 0.001 * (32000 - 20000)) : ℝ) / 216.65) ^
        (-g0 / (0.001 * R_GAS)) ≤ 1 / 6 := by
  have hbase : ((216.65 + 0.001 * (32000 - 20000)) : ℝ) / 216.65 =
      228.65 / 216.65 := by norm_num
  rw [hbase, neg_div, Real.rpow_neg (by norm_num : (0:ℝ) ≤ 228.65 / 216.65)]
  have hc : (1 : ℝ) ≤ 228.65 / 216.65 := by norm_num
  have he : (34 : ℝ) ≤ g0 / (0.001 * R_GAS) := by norm_num [g0, R_GAS]
  have h34 : (6 : ℝ) ≤ ((228.65 : ℝ) / 216.65) ^ ((34 : ℕ) : ℝ) := by
    rw [Real.rpow_natCast]
    norm_num
  have hpow : (6 : ℝ) ≤ ((228.65 : ℝ) / 216.65) ^ (g0 / (0.001 * R_GAS)) :=
    le_trans h34 (Real.rpow_le_rpow_of_exponent_le hc (by exact_mod_cast he))
  rw [show (1 : ℝ) / 6 = 6⁻¹ by norm_num]
  exact inv_le_inv_of_le (by norm_num) hpow

/-- The upper-stratosphere band evaluated at the 32 km boundary is at most
`0.016 kg/m^3`. -/
theorem densityStrat2_32km_upper : densityStrat2 32000 ≤ 0.016 := by
  simp only [densityStrat2]
  have hT : (216.65 + 0.001 * ((32000 : ℝ) - 20000)) = 228.65 := by norm_num
  have hA := rpow_trop_bound
  have hB := exp_strat_bound
  have hC := rpow_strat2_bound
  have hA0 : (0 : ℝ) ≤ ((216.65 : ℝ) / T0_ISA) ^ (g0 / (L_ISA * R_GAS)) :=
    Real.rpow_nonneg (by norm_num [T0_ISA]) _
  have hB0 : (0 : ℝ) ≤ Real.exp (-g0 * 9000 / (R_GAS * 216.65)) :=
    (Real.exp_pos _).le
  have hC0 : (0 : ℝ) ≤
      (((216.65 + 0.001 * (32000 - 20000)) : ℝ) / 216.65) ^
        (-g0 / (0.001 * R_GAS)) :=
    Real.rpow_nonneg (by norm_num) _
  have hden : (0 : ℝ) < R_GAS * (216.65 + 0.001 * ((32000 : ℝ) - 20000)) := by
    norm_num [R_GAS]
  rw [div_le_iff hden]
  calc P0_ISA * ((216.65 : ℝ) / T0_ISA) ^ (g0 / (L_ISA * R_GAS)) *
        Real.exp (-g0 * 9000 / (R_GAS * 216.65)) *
        (((216.65 + 0.001 * (32000 - 20000)) : ℝ) / 216.65) ^
          (-g0 / (0.001 * R_GAS))
      ≤ P0_ISA * 0.2403 * 0.25 * (1 / 6) := by
        have h1 : P0_ISA * ((216.65 : ℝ) / T0_ISA) ^ (g0 / (L_ISA * R_GAS)) ≤
            P0_ISA * 0.2403 :=
          mul_le_mul_of_nonneg_left hA (by norm_num [P0_ISA])
        have h2 : P0_ISA * ((216.65 : ℝ) / T0_ISA) ^ (g0 / (L_ISA * R_GAS)) *
            Real.exp (-g0 * 9000 / (R_GAS * 216.65)) ≤
            P0_ISA * 0.2403 * 0.25 :=
          mul_le_mul h1 hB hB0 (by norm_num [P0_ISA])
        exact mul_le_mul h2 hC hC0 (by norm_num [P0_ISA])
    _ ≤ 0.016 * (R_GAS * (216.65 + 0.001 * ((32000 : ℝ) - 20000))) := by
        norm_num [P0_ISA, R_GAS]

/-- The two bands meeting at 32 km disagree by more than `0.01 kg/m^3`. -/
theorem density_32km_gap :
    densityStrat2 32000 + 1 / 100 < densityMeso 32000 := by
  have h1 := densityStrat2_32km_upper
  have h2 := densityMeso_32km_lower
  linarith

/-- C3 counterexample: the claim fails at the 32 km transition — the band
below and the band above disagree there (by more than `0.01 kg/m^3`, far
beyond floating tolerance). -/
theorem c3_counterexample : densityStrat2 32000 ≠ densityMeso 32000 := by
  intro h
  have := density_32km_gap
  rw [h] at this
  linarith

/-- C3 amended: the ISA band formulas agree exactly at the 11 km and 20 km
transitions, but are discontinuous at the 32 km transition (the bands
differ by more than `0.01 kg/m^3` there) and at the 84 km transition (the
mesosphere band is strictly positive at 84 km while above 84 km the density
is `0`, e.g. at 90 km). -/
theorem c3_atmosphere_boundaries :
    densityTroposphere 11000 = densityStrat1 11000 ∧
      densityStrat1 20000 = densityStrat2 20000 ∧
      densityStrat2 32000 + 1 / 100 < densityMeso 32000 ∧
      0 < densityMeso 84000 ∧
      getAirDensity 90000 = 0 := by
  refine ⟨?_, ?_, density_32km_gap, ?_, ?_⟩
  · simp only [densityTroposphere, densityStrat1]
    norm_num [T0_ISA, L_ISA, Real.exp_zero]
  · simp only [densityStrat1, densityStrat2]
    norm_num [Real.one_rpow]
  · simp only [densityMeso, P0_ISA, R_GAS]
    positivity
  · norm_num [getAirDensity]

/-! ## C8: mass evolution -/

/-- The mass component of the derivative is `massFlow`. -/
theorem derivatives_dm (p : SimParams) (st : SimState) (t : ℝ) (sep : Bool) :
    (derivatives p st t sep).1.dm = massFlow p st.m t := rfl

/-- The new `separated` flag returned by `derivatives` is `sepUpdate`. -/
theorem derivatives_sep (p : SimParams) (st : SimState) (t : ℝ) (sep : Bool) :
    (derivatives p st t sep).2 = sepUpdate p st.m t sep := rfl

/-- The mass component of one RK4 step, written out through the four
`massFlow` evaluations. -/
theorem rk4Step_m (p : SimParams) (st : SimState) (t dt : ℝ) (sep : Bool) :
    (rk4Step p st t dt sep).1.m =
      st.m + (dt / 6) *
        (massFlow p st.m t
         + 2 * massFlow p (st.m + 0.5 * dt * massFlow p st.m t) (t + 0.5 * dt)
         + 2 * massFlow p (st.m + 0.5 * dt *
             massFlow p (st.m + 0.5 * dt * massFlow p st.m t) (t + 0.5 * dt))
             (t + 0.5 * dt)
         + massFlow p (st.m + dt *
             massFlow p (st.m + 0.5 * dt *
               massFlow p (st.m + 0.5 * dt * massFlow p st.m t)
                 (t + 0.5 * dt)) (t + 0.5 * dt)) (t + dt)) := rfl

/-- Under nonnegative mass, thrust-to-weight and specific impulse, the mass
flow is never positive. -/
theorem massFlow_nonpos (p : SimParams) (hm : 0 ≤ p.launchMass)
    (htw : 0 ≤ p.thrustToWeight) (hisp : 0 ≤ p.isp) (m t : ℝ) :
    massFlow p m t ≤ 0 := by
  have hF : 0 ≤ initialThrust p :=
    mul_nonneg (mul_nonneg hm (by norm_num [g0])) htw
  have hv : 0 ≤ exhaustVelocity p := mul_nonneg hisp (by norm_num [g0])
  have hdiv : 0 ≤ initialThrust p / exhaustVelocity p := div_nonneg hF hv
  rw [massFlow]
  split_ifs
  · rw [neg_div]; linarith
  · exact le_refl 0

/-- The mass flow vanishes once `t` passes the extended burn window. -/
theorem massFlow_zero_late (p : SimParams) (m t : ℝ)
    (h : effBurnTime p * 1.5 ≤ t) : massFlow p m t = 0 := by
  rw [massFlow, if_neg]
  rintro ⟨-, h2⟩
  linarith

/-- The mass flow vanishes once the mass is down to `emptyMass`. -/
theorem massFlow_zero_small (p : SimParams) (m t : ℝ)
    (h : m ≤ p.emptyMass) : massFlow p m t = 0 := by
  rw [massFlow, if_neg]
  rintro ⟨h1, -⟩
  linarith

/-- One RK4 step never increases the mass. -/
theorem rk4_mass_le (p : SimParams) (hm : 0 ≤ p.launchMass)
    (htw : 0 ≤ p.thrustToWeight) (hisp : 0 ≤ p.isp) (st : SimState)
    (t : ℝ) (sep : Bool) : (rk4Step p st t 0.5 sep).1.m ≤ st.m := by
  rw [rk4Step_m]
  set f1 := massFlow p st.m t with hf1
  set f2 := massFlow p (st.m + 0.5 * 0.5 * f1) (t + 0.5 * 0.5) with hf2
  set f3 := massFlow p (st.m + 0.5 * 0.5 * f2) (t + 0.5 * 0.5) with hf3
  set f4 := massFlow p (st.m + 0.5 * f3) (t + 0.5) with hf4
  have h1 : f1 ≤ 0 := massFlow_nonpos p hm htw hisp _ _
  have h2 : f2 ≤ 0 := massFlow_nonpos p hm htw hisp _ _
  have h3 : f3 ≤ 0 := massFlow_nonpos p hm htw hisp _ _
  have h4 : f4 ≤ 0 := massFlow_nonpos p hm htw hisp _ _
  linarith

/-- Sample masses along any loop segment are non-increasing. -/
theorem simLoop_mass_chain (p : SimParams) (hm : 0 ≤ p.launchMass)
    (htw : 0 ≤ p.thrustToWeight) (hisp : 0 ≤ p.isp) :
    ∀ (n k : ℕ) (st : SimState) (sep : Bool),
      List.Chain' (fun a b => b.m ≤ a.m) (simLoop p n k st sep).1 := by
  intro n
  induction n with
  | zero => intro k st sep; simp [simLoop]
  | succ n ih =>
    intro k st sep
    rw [simLoop_succ]
    split_ifs with hb
    · simp
    · rw [List.chain'_cons']
      refine ⟨?_, ih _ _ _⟩
      intro b hbmem
      cases n with
      | zero => simp [simLoop] at hbmem
      | succ n' =>
        rw [simLoop_succ, List.head?_cons, Option.mem_some_iff] at hbmem
        have hbm : b.m = (rk4Step p st ((k : ℝ) * 0.5) 0.5 sep).1.m := by
          rw [← hbmem]; rfl
        rw [hbm]
        exact rk4_mass_le p hm htw hisp st _ sep

/-- C8 counterexample: the claim's "constant for all `t ≥ burnTime`" part
fails — at the concrete parameter set (`burnTime = 65`) an RK4 step taken
at `t = 70 ≥ burnTime` still strictly decreases the mass, because the
thrust branch stays active until `burnTime * 1.5`. -/
theorem c8_counterexample :
    effBurnTime testParams ≤ 70 ∧
      (rk4Step testParams burnState 70 0.5 false).1.m < burnState.m := by
  have hbt : effBurnTime testParams = 65 := by
    rw [effBurnTime, if_neg] <;> norm_num [testParams]
  have hfv : initialThrust testParams / exhaustVelocity testParams =
      3100 / 79 := by
    norm_num [initialThrust, exhaustVelocity, testParams, g0]
  have hmf : ∀ m t : ℝ, 1600 < m → t < 97.5 →
      massFlow testParams m t = -(3100 / 79) := by
    intro m t h1 h2
    rw [massFlow, if_pos, neg_div, hfv]
    refine ⟨by norm_num [testParams]; exact h1, by rw [hbt]; linarith⟩
  constructor
  · rw [hbt]; norm_num
  · rw [rk4Step_m]
    have hsm : burnState.m = 6200 := rfl
    rw [hsm]
    rw [hmf 6200 70 (by norm_num) (by norm_num)]
    rw [hmf _ _ (by norm_num) (by norm_num)]
    rw [hmf _ _ (by norm_num) (by norm_num)]
    rw [hmf _ _ (by norm_num) (by norm_num)]
    norm_num

/-- C8 amended: under nonnegative `launchMass`, `thrustToWeight` and
`isp`, the evolving mass is non-increasing at every step (hence along all
recorded samples of every run, at all times — in particular while
`t < burnTime`); it is constant once `t ≥ 1.5 * burnTime` (the source
extends the burn by a `1.5` margin) and once the mass has reached
`emptyMass`, but it may continue to decrease for
`burnTime ≤ t < 1.5 * burnTime`. -/
theorem c8_mass_monotone (p : SimParams) (st : SimState) (t : ℝ)
    (sep : Bool) (n k : ℕ) (hm : 0 ≤ p.launchMass)
    (htw : 0 ≤ p.thrustToWeight) (hisp : 0 ≤ p.isp) :
    (rk4Step p st t 0.5 sep).1.m ≤ st.m ∧
      (effBurnTime p * 1.5 ≤ t → (rk4Step p st t 0.5 sep).1.m = st.m) ∧
      (st.m ≤ p.emptyMass → (rk4Step p st t 0.5 sep).1.m = st.m) ∧
      List.Chain' (fun a b => b.m ≤ a.m) (simLoop p n k st sep).1 := by
  refine ⟨rk4_mass_le p hm htw hisp st t sep, ?_, ?_,
    simLoop_mass_chain p hm htw hisp n k st sep⟩
  · intro ht
    rw [rk4Step_m,
      massFlow_zero_late p st.m t ht,
      massFlow_zero_late p _ _ (by linarith : effBurnTime p * 1.5 ≤ t + 0.5 * 0.5),
      massFlow_zero_late p _ _ (by linarith : effBurnTime p * 1.5 ≤ t + 0.5 * 0.5),
      massFlow_zero_late p _ _ (by linarith : effBurnTime p * 1.5 ≤ t + 0.5)]
    ring
  · intro hms
    rw [rk4Step_m, massFlow_zero_small p st.m t hms]
    rw [massFlow_zero_small p _ _
      (by nlinarith : st.m + 0.5 * 0.5 * 0 ≤ p.emptyMass)]
    rw [massFlow_zero_small p _ _
      (by nlinarith : st.m + 0.5 * 0.5 * 0 ≤ p.emptyMass)]
    rw [massFlow_zero_small p _ _
      (by nlinarith : st.m + 0.5 * 0 ≤ p.emptyMass)]
    ring

/-- Witness for C8 at a concrete parameter set and state. -/
theorem c8_witness :
    (rk4Step testParams burnState 0 0.5 false).1.m ≤ burnState.m ∧
      (effBurnTime testParams * 1.5 ≤ 0 →
        (rk4Step testParams burnState 0 0.5 false).1.m = burnState.m) ∧
      (burnState.m ≤ testParams.emptyMass →
        (rk4Step testParams burnState 0 0.5 false).1.m = burnState.m) ∧
      List.Chain' (fun a b => b.m ≤ a.m)
        (simLoop testParams 1 0 burnState false).1 :=
  c8_mass_monotone testParams burnState 0 false 1 0
    (by norm_num [testParams]) (by norm_num [testParams])
    (by norm_num [testParams])

/-! ## C9: one-way separation flag and payload drag -/

/-- Monotonicity: `sepUpdate` never clears a set flag. -/
theorem sepUpdate_true (p : SimParams) (m t : ℝ) :
    sepUpdate p m t true = true := by
  rw [sepUpdate]
  split_ifs <;> rfl

/-- Trigger: `sepUpdate` sets the flag as soon as the mass is down to
`emptyMass`. -/
theorem sepUpdate_set (p : SimParams) (m t : ℝ) (h : m ≤ p.emptyMass) :
    sepUpdate p m t false = true := by
  rw [sepUpdate, if_neg, if_pos]
  · exact ⟨rfl, h⟩
  · rintro ⟨h1, -⟩; linarith

/-- An RK4 step keeps a set `separated` flag set. -/
theorem rk4_sep_true (p : SimParams) (st : SimState) (t dt : ℝ) :
    (rk4Step p st t dt true).2 = true := by
  simp only [rk4Step, derivatives_sep, sepUpdate_true]

/-- The loop keeps a set `separated` flag set for the rest of the run. -/
theorem simLoop_sep_true (p : SimParams) :
    ∀ (n k : ℕ) (st : SimState), (simLoop p n k st true).2.2 = true := by
  intro n
  induction n with
  | zero => intro k st; rfl
  | succ n ih =>
    intro k st
    simp only [simLoop]
    split_ifs
    · rfl
    · simp only [rk4_sep_true]
      exact ih (k + 1) _

/-- C9: the `separated` flag is set within the very `derivatives` call that
sees the mass at or below `emptyMass`; a set flag survives every further
`derivatives` call, every RK4 step, and the rest of the driver loop; and
whenever the flag is set, the drag acceleration is exactly the payload-only
formula built from the warhead mass and the reduced cross-section
`A * 0.3`, with no dependence on the full-vehicle mass or area. -/
theorem c9_separation (p : SimParams) (st : SimState) (t : ℝ) (n k : ℕ)
    (st2 : SimState) (hm : st.m ≤ p.emptyMass) :
    (derivatives p st t false).2 = true ∧
      (∀ (st' : SimState) (t' : ℝ), (derivatives p st' t' true).2 = true) ∧
      (∀ (st' : SimState) (t' dt' : ℝ),
        (rk4Step p st' t' dt' true).2 = true) ∧
      (simLoop p n k st2 true).2.2 = true ∧
      (∀ st' : SimState, dragAccelVec p true st' = payloadDragVec p st') := by
  refine ⟨?_, ?_, ?_, simLoop_sep_true p n k st2, ?_⟩
  · rw [derivatives_sep]
    exact sepUpdate_set p st.m t hm
  · intro st' t'
    rw [derivatives_sep]
    exact sepUpdate_true p st'.m t'
  · intro st' t' dt'
    exact rk4_sep_true p st' t' dt'
  · intro st'
    rfl

/-- Witness for C9 at a concrete state whose mass is at `emptyMass`. -/
theorem c9_witness :
    (derivatives testParams groundState 20 false).2 = true ∧
      (∀ (st' : SimState) (t' : ℝ),
        (derivatives testParams st' t' true).2 = true) ∧
      (∀ (st' : SimState) (t' dt' : ℝ),
        (rk4Step testParams st' t' dt' true).2 = true) ∧
      (simLoop testParams 3 0 burnState true).2.2 = true ∧
      (∀ st' : SimState,
        dragAccelVec testParams true st' = payloadDragVec testParams st') :=
  c9_separation testParams groundState 20 3 0 burnState
    (by norm_num [groundState, testParams])

/-! ## C10: ground-impact termination -/

/-- Projection lemma: `getLastD` of a nonempty list does not depend on the default. -/
theorem getLastD_ne_nil {α : Type} [Inhabited α] (l : List α) (h : l ≠ [])
    (d : α) : l.getLastD d = l.getLastD default := by
  cases l with
  | nil => exact absurd rfl h
  | cons a l => rfl

/-- If the loop stopped before exhausting its fuel, it stopped through the
ground-impact break, so its final recorded sample is strictly below the
surface and past the 10 s grace period. -/
theorem simLoop_last_break (p : SimParams) :
    ∀ (n k : ℕ) (st : SimState) (sep : Bool),
      (simLoop p n k st sep).1.length < n →
        ((simLoop p n k st sep).1.getLastD default).h < 0 ∧
          ((simLoop p n k st sep).1.getLastD default).t > 10 := by
  intro n
  induction n with
  | zero => intro k st sep h; simp [simLoop] at h
  | succ n ih =>
    intro k st sep hlen
    rw [simLoop_succ] at hlen ⊢
    by_cases hb : norm2 st.x st.y - R_E < 0 ∧ ((k : ℝ) * 0.5) > 10
    · rw [if_pos hb]
      constructor
      · show (norm2 st.x st.y - R_E) / 1000 < 0
        exact div_neg_of_neg_of_pos hb.1 (by norm_num)
      · exact hb.2
    · rw [if_neg hb] at hlen ⊢
      have hrest : (simLoop p n (k + 1) (rk4Step p st ((k : ℝ) * 0.5) 0.5 sep).1
          (rk4Step p st ((k : ℝ) * 0.5) 0.5 sep).2).1.length < n := by
        simpa using hlen
    -- the tail is nonempty because its length bound forces `n ≥ 1`
      cases n with
      | zero => simp [simLoop] at hrest
      | succ n' =>
        have hne := simLoop_ne_nil p n' (k + 1)
          (rk4Step p st ((k : ℝ) * 0.5) 0.5 sep).1
          (rk4Step p st ((k : ℝ) * 0.5) 0.5 sep).2
        have := ih (k + 1) (rk4Step p st ((k : ℝ) * 0.5) 0.5 sep).1
          (rk4Step p st ((k : ℝ) * 0.5) 0.5 sep).2 hrest
        rw [List.getLastD_cons, getLastD_ne_nil _ hne]
        exact this

/-- C10: whenever a loop segment terminates early (its sample count is
below its fuel, which is exactly the ground-impact break `h < 0 ∧ t > 10`;
the full run is the segment with fuel `14400` from the initial state), the
final recorded sample lies strictly below the reference surface and past
the grace period — the sample was pushed before the termination check — and
the statistics take impact speed, flight time, and impact Mach
(`impact speed / 340`) directly from that below-surface sample, with no
interpolated ground crossing. -/
theorem c10_ground_termination (p : SimParams) (n k : ℕ) (st : SimState)
    (sep : Bool) (hlen : (simLoop p n k st sep).1.length < n) :
    ((simLoop p n k st sep).1.getLastD default).h < 0 ∧
      ((simLoop p n k st sep).1.getLastD default).t > 10 ∧
      (computeStats (simLoop p n k st sep).1).impactVelocity =
        ((simLoop p n k st sep).1.getLastD default).v ∧
      (computeStats (simLoop p n k st sep).1).flightTime =
        ((simLoop p n k st sep).1.getLastD default).t ∧
      (computeStats (simLoop p n k st sep).1).impactMach =
        ((simLoop p n k st sep).1.getLastD default).v / 340 := by
  obtain ⟨h1, h2⟩ := simLoop_last_break p n k st sep hlen
  exact ⟨h1, h2, rfl, rfl, rfl⟩

/-- Witness for C10: a two-fuel loop segment started below the surface
after the grace period terminates early, and the theorem applies. -/
theorem c10_witness :
    ((simLoop testParams 2 30 groundState false).1.getLastD default).h < 0 ∧
      ((simLoop testParams 2 30 groundState false).1.getLastD default).t >
        10 ∧
      (computeStats (simLoop testParams 2 30 groundState false).1).impactVelocity =
        ((simLoop testParams 2 30 groundState false).1.getLastD default).v ∧
      (computeStats (simLoop testParams 2 30 groundState false).1).flightTime =
        ((simLoop testParams 2 30 groundState false).1.getLastD default).t ∧
      (computeStats (simLoop testParams 2 30 groundState false).1).impactMach =
        ((simLoop testParams 2 30 groundState false).1.getLastD default).v /
          340 :=
  c10_ground_termination testParams 2 30 groundState false (by
    have hx : groundState.x = 0 := rfl
    have hy : groundState.y = R_E - 1000 := rfl
    have hn : norm2 groundState.x groundState.y = R_E - 1000 := by
      rw [hx, hy]; exact norm2_zero_left _ (by norm_num [R_E])
    rw [show (2 : ℕ) = 1 + 1 from rfl, simLoop_succ, if_pos]
    · simp
    · constructor
      · rw [hn]; norm_num
      · push_cast; norm_num)

/-! ## C6: summary statistics -/

/-- A `foldl max` dominates its seed. -/
theorem le_foldl_max (l : List ℝ) : ∀ a : ℝ, a ≤ l.foldl max a := by
  induction l with
  | nil => intro a; exact le_refl a
  | cons c l ih => intro a; exact le_trans (le_max_left a c) (ih (max a c))

/-- A `foldl max` dominates every list element. -/
theorem mem_le_foldl_max (l : List ℝ) :
    ∀ a b : ℝ, b ∈ l → b ≤ l.foldl max a := by
  induction l with
  | nil => intro a b h; simp at h
  | cons c l ih =>
    intro a b h
    rcases List.mem_cons.mp h with rfl | h2
    · exact le_trans (le_max_right a b) (le_foldl_max l (max a b))
    · exact ih (max a c) b h2

/-- Bound: `listMax` dominates every element of the list. -/
theorem le_listMax (l : List ℝ) (b : ℝ) (hb : b ∈ l) : b ≤ listMax l := by
  cases l with
  | nil => simp at hb
  | cons a l =>
    rcases List.mem_cons.mp hb with rfl | h2
    · exact le_foldl_max l b
    · exact mem_le_foldl_max l a b h2

/-- The head of a nonempty list is a member. -/
theorem headI_mem_of_ne_nil {α : Type} [Inhabited α] (l : List α)
    (h : l ≠ []) : l.headI ∈ l := by
  cases l with
  | nil => exact absurd rfl h
  | cons a l => exact List.mem_cons_self a l

/-- Scaling: `norm2` scales with a nonnegative factor. -/
theorem norm2_scale (c a b : ℝ) (hc : 0 ≤ c) :
    norm2 (c * a) (c * b) = c * norm2 a b := by
  rw [norm2, norm2, show c * a * (c * a) + c * b * (c * b) =
    c * c * (a * a + b * b) by ring,
    Real.sqrt_mul (mul_self_nonneg c), Real.sqrt_mul_self hc]

/-- The normalised dot product of two positions is scale invariant: the
statistics code rescales the stored kilometre coordinates by `1000` before
taking the angle between them, which leaves the angle unchanged. -/
theorem cosAngle_scale (x1 y1 x2 y2 : ℝ) :
    (x1 * 1000 * (x2 * 1000) + y1 * 1000 * (y2 * 1000)) /
        (norm2 (x1 * 1000) (y1 * 1000) * norm2 (x2 * 1000) (y2 * 1000)) =
      (x1 * x2 + y1 * y2) / (norm2 x1 y1 * norm2 x2 y2) := by
  have h1 : norm2 (x1 * 1000) (y1 * 1000) = 1000 * norm2 x1 y1 := by
    rw [show x1 * 1000 = 1000 * x1 by ring, show y1 * 1000 = 1000 * y1 by ring]
    exact norm2_scale 1000 x1 y1 (by norm_num)
  have h2 : norm2 (x2 * 1000) (y2 * 1000) = 1000 * norm2 x2 y2 := by
    rw [show x2 * 1000 = 1000 * x2 by ring, show y2 * 1000 = 1000 * y2 by ring]
    exact norm2_scale 1000 x2 y2 (by norm_num)
  rw [h1, h2,
    show x1 * 1000 * (x2 * 1000) + y1 * 1000 * (y2 * 1000) =
      1000000 * (x1 * x2 + y1 * y2) by ring,
    show 1000 * norm2 x1 y1 * (1000 * norm2 x2 y2) =
      1000000 * (norm2 x1 y1 * norm2 x2 y2) by ring]
  exact mul_div_mul_left _ _ (by norm_num)

/-- C6 amended: for every run, max altitude, max speed and max Mach are the
maxima of the per-sample values, flight time and impact speed come from the
last sample, ground range is the angle between the first and last position
vectors times the planetary radius (in km) — but impact Mach is the last
sample's speed divided by the fixed constant `340`, not the last sample's
Mach value (which uses the local speed of sound). -/
theorem c6_stats_formulas (p : SimParams) :
    (runSimulation p).2.maxHeight =
        listMax ((runSimulation p).1.map Sample.h) ∧
      (∀ s ∈ (runSimulation p).1, s.h ≤ (runSimulation p).2.maxHeight) ∧
      (runSimulation p).2.maxVelocity =
        listMax ((runSimulation p).1.map Sample.v) ∧
      (runSimulation p).2.maxMach =
        listMax ((runSimulation p).1.map Sample.mach) ∧
      (runSimulation p).2.flightTime =
        ((runSimulation p).1.getLastD default).t ∧
      (runSimulation p).2.impactVelocity =
        ((runSimulation p).1.getLastD default).v ∧
      (runSimulation p).2.impactMach =
        ((runSimulation p).1.getLastD default).v / 340 ∧
      (runSimulation p).2.range =
        R_E * positionAngle
          ((runSimulation p).1.headI.x, (runSimulation p).1.headI.y)
          (((runSimulation p).1.getLastD default).x,
            ((runSimulation p).1.getLastD default).y) / 1000 := by
  refine ⟨rfl, ?_, rfl, rfl, rfl, rfl, rfl, ?_⟩
  · intro s hs
    exact le_listMax _ _ (List.mem_map_of_mem Sample.h hs)
  · simp only [runSimulation, computeStats, positionAngle]
    rw [cosAngle_scale]

/-- Witness for C6 at a concrete parameter set: the first sample's altitude
is bounded by the reported maximum altitude. -/
theorem c6_witness :
    (runSimulation testParams).1.headI.h ≤
      (runSimulation testParams).2.maxHeight :=
  (c6_stats_formulas testParams).2.1 _
    (headI_mem_of_ne_nil _ (runTrajectory_head testParams).1)

/-- C6 counterexample: the "impact Mach = the last sample's value" part is
false.  For the one-sample trajectory recorded from a concrete below-surface
state moving at `340 m/s`, the statistics report impact Mach
`340 / 340 = 1`, while the sample's own Mach value is
`340 / sqrt(1.4 * 287.05 * 288.15) ≠ 1`. -/
theorem c6_counterexample :
    (computeStats [mkSample testParams 20 impactState]).impactMach ≠
      (mkSample testParams 20 impactState).mach := by
  have hv : norm2 impactState.vx impactState.vy = 340 := by
    rw [show impactState.vx = 0 from rfl, show impactState.vy = 340 from rfl]
    exact norm2_zero_left 340 (by norm_num)
  have hh : norm2 impactState.x impactState.y - R_E = -1000 := by
    rw [show impactState.x = 0 from rfl,
      show impactState.y = R_E - 1000 from rfl,
      norm2_zero_left _ (by norm_num [R_E])]
    ring
  have hsos : getSpeedOfSound (max 0 (norm2 impactState.x impactState.y -
      R_E)) = Real.sqrt 115798.8405 := by
    rw [hh, show max (0 : ℝ) (-1000) = 0 by norm_num, getSpeedOfSound,
      if_pos (by norm_num : (0 : ℝ) ≤ 11000)]
    norm_num [GAMMA, R_GAS, T0_ISA, L_ISA]
  have hsq : Real.sqrt 115798.8405 ≠ 340 := by
    intro h
    have h2 : Real.sqrt 115798.8405 ^ 2 = 115798.8405 :=
      Real.sq_sqrt (by norm_num)
    rw [h] at h2
    norm_num at h2
  have hL : (computeStats [mkSample testParams 20 impactState]).impactMach =
      1 := by
    show (mkSample testParams 20 impactState).v / 340 = 1
    rw [show (mkSample testParams 20 impactState).v =
      norm2 impactState.vx impactState.vy from rfl, hv]
    norm_num
  have hR : (mkSample testParams 20 impactState).mach =
      340 / Real.sqrt 115798.8405 := by
    show norm2 impactState.vx impactState.vy /
        getSpeedOfSound (max 0 (norm2 impactState.x impactState.y - R_E)) = _
    rw [hv, hsos]
  rw [hL, hR]
  intro hEq
  have hpos : 0 < Real.sqrt 115798.8405 := Real.sqrt_pos.mpr (by norm_num)
  rw [eq_div_iff (ne_of_gt hpos), one_mul] at hEq
  exact hsq hEq

end Ballistic
